import Mathlib

/-!
Shallow embedding of the latency-aware matchmaking and broadcaster-registration
core of the repository (files `server/evr_matchmaker.go` and
`server/evr_pipeline_broadcaster.go`), together with theorems settling the
spec's claims about it.

Conventions of the embedding:
* Go `time.Duration` values are nanosecond counts; they are modelled as `Nat`
  (round-trip times are nonnegative in every claim) and as `Int` where the Go
  code uses a negative sentinel (the health-check result).  No value involved
  comes near the `int64` overflow boundary, so no wraparound is modelled.
* Go maps (`endpointRTTs`, the latency cache, the broadcaster registry) are
  modelled as functions with explicit default values, matching Go's
  zero-value-on-missing-key lookup semantics.
* External collaborators (match registry, party registry, transport, identity
  directory) are modelled as explicit inputs: each call's result is a parameter
  of the embedded function, and observable effects (messages sent, sessions
  closed, locks taken) are recorded in explicit result structures.
-/

namespace Nakama

/-- One millisecond in nanoseconds (Go `time.Millisecond`). -/
def millisecond : Nat := 1000000

/-- `mroundRTT` (evr_matchmaker.go): rounds `rtt` to the nearest `modulus`.
The Go code computes `time.Duration(math.Round(float64(rtt)/float64(modulus))) * modulus`;
for nonnegative durations in the float64-exact range `math.Round` is
round-half-away-from-zero, i.e. round-half-up, which on `Nat` is
`(2*rtt + modulus) / (2*modulus)` with floor division. -/
def mroundRTT (rtt modulus : Nat) : Nat :=
  ((2 * rtt + modulus) / (2 * modulus)) * modulus

/-- `RTTweightedPopulationCmp` (evr_matchmaker.go): the `less` comparator used
by `sort.SliceStable` for Arena-public matches.  `i`, `j` are the two RTTs,
`o`, `p` the two populations.  Returning `true` means the first element sorts
before the second. -/
def RTTweightedPopulationCmp (i j : Nat) (o p : Nat) : Bool :=
  -- Sort by if over or under 90ms
  if i > 90 * millisecond ∧ j < 90 * millisecond then true
  else if i < 90 * millisecond ∧ j > 90 * millisecond then false
  -- Sort by Population
  else if o > p then true
  else if o < p then false
  -- If all else equal, sort by rtt
  else decide (i < j)

/-- `PopulationCmp` (evr_matchmaker.go): the `less` comparator used by
`sort.SliceStable` for Combat/Social/default modes. -/
def PopulationCmp (o p : Nat) (i j : Nat) : Bool :=
  if o = p then decide (i < j) else decide (o > p)

/-- Stable insertion used to model Go's `sort.SliceStable`: the new element
`x` (which occurs later in the input than everything already in the sorted
list) moves past exactly those elements that are strictly `less` than it, so
elements comparing equal keep their original relative order. -/
def stableInsert (less : α → α → Bool) (x : α) : List α → List α
  | [] => [x]
  | y :: ys => if less y x then y :: stableInsert less x ys else x :: y :: ys

/-- Model of Go's `sort.SliceStable`: a stable sort by the `less` comparator.
For a strict-weak-order comparator this agrees with any stable sort, in
particular with Go's. -/
def sortSliceStable (less : α → α → Bool) : List α → List α
  | [] => []
  | x :: xs => stableInsert less x (sortSliceStable less xs)

/-- UUIDs are modelled by `Nat`; `uuidNil` models `uuid.Nil`. -/
abbrev UUID := Nat

/-- `uuid.Nil`. -/
def uuidNil : UUID := 0

/-- `LobbyType` (match state): only the constructors the excerpt compares
against are distinguished. -/
inductive LobbyType
  | PublicLobby
  | PrivateLobby
  | UnassignedLobby
deriving DecidableEq, Repr

/-- `TeamIndex` values the excerpt compares against. -/
inductive TeamIndex
  | AnyTeam
  | BlueTeam
  | OrangeTeam
  | Spectator
  | Moderator
deriving DecidableEq, Repr

/-- The game modes (`evr.Symbol` constants) distinguished by the `switch` in
`MatchSort`; every other symbol takes the `default` branch and is collapsed
into `ModeOther`. -/
inductive GameMode
  | ModeArenaPublic
  | ModeCombatPublic
  | ModeSocialPublic
  | ModeOther
deriving DecidableEq, Repr

/-- `MatchBroadcaster` fields of the session label used by the excerpt.
`EndpointID` models `Broadcaster.Endpoint.ID()`, the stable string identity
derived from the external address and port. -/
structure MatchBroadcaster where
  EndpointID : String
  Channels : List UUID
  Region : Nat          -- evr.Symbol; 0 models `evr.Symbol(0)` (unset)
deriving DecidableEq, Repr

/-- `EvrMatchState` (session label), restricted to the fields the embedded
functions read.  `Channel` (a `*uuid.UUID` in Go) is modelled as a plain
`UUID` because `buildMatchQueryFromLabel` dereferences it unconditionally;
`playersCount` models `len(label.Players)`. -/
structure EvrMatchState where
  LobbyType : LobbyType
  Mode : GameMode
  TeamSize : Nat
  Size : Nat
  MaxSize : Nat
  TeamIndex : TeamIndex
  MatchID : UUID
  Channel : UUID
  Broadcaster : MatchBroadcaster
  playersCount : Nat
deriving DecidableEq, Repr

/-- `LatencyMetric`: one cached endpoint→RTT measurement.  The Go struct also
carries a `Timestamp`, which no embedded claim reads; it is omitted. -/
structure LatencyMetric where
  EndpointID : String
  RTT : Nat
deriving DecidableEq, Repr

/-- The `endpointRTTs` map built at the top of `MatchSort`: endpoint id →
`mroundRTT(rtt, 10ms)`, folded left over the ping results so that later
entries overwrite earlier ones; a missing key yields Go's zero value `0`. -/
def endpointRTTs (result : List LatencyMetric) : String → Nat :=
  result.foldl
    (fun m r => fun id =>
      if id = r.EndpointID then mroundRTT r.RTT (10 * millisecond) else m id)
    (fun _ => 0)

/-- One entry of the `datas` slice in `MatchSort`. -/
structure labelData where
  Id : String
  Size : Nat
  RTT : Nat
deriving DecidableEq, Repr

/-- The `datas` construction in `MatchSort`: one entry per label, skipping a
label when its (rounded) RTT is `0` or over 270ms. -/
def datasOf (labels : List EvrMatchState) (rtts : String → Nat) : List labelData :=
  labels.filterMap (fun label =>
    let id := label.Broadcaster.EndpointID
    let rtt := rtts id
    -- If the rtt is 0 or over 270ms, skip the match
    if rtt = 0 ∨ rtt > 270 * millisecond then none
    else some ⟨id, label.Size, rtt⟩)

/-- The mode `switch` in `MatchSort`: Arena-public sorts with
`RTTweightedPopulationCmp`; Combat-public and Social-public fall through to
the default `PopulationCmp` sort. -/
def sortDatas (mode : GameMode) (datas : List labelData) : List labelData :=
  match mode with
  | GameMode.ModeArenaPublic =>
      sortSliceStable (fun a b => RTTweightedPopulationCmp a.RTT b.RTT a.Size b.Size) datas
  | _ =>
      sortSliceStable (fun a b => PopulationCmp a.Size b.Size a.RTT b.RTT) datas

/-- The pure core of `MatchSort` (evr_matchmaker.go), after the ping:
given the session's mode, the candidate labels, and the ping results for the
labels' endpoints, it rounds and maps the RTTs, filters, sorts, and rebuilds
the filtered label list (each sorted entry is resolved back to the *first*
label carrying its endpoint id, paired with its RTT). -/
def MatchSort (mode : GameMode) (labels : List EvrMatchState)
    (result : List LatencyMetric) : List EvrMatchState × List Nat :=
  -- If there are no matches, return
  if labels = [] then ([], [])
  else
    let rtts := endpointRTTs result
    let datas := sortDatas mode (datasOf labels rtts)
    let pairs := datas.filterMap (fun d =>
      (labels.find? (fun l => l.Broadcaster.EndpointID = d.Id)).map (fun l => (l, d.RTT)))
    (pairs.map Prod.fst, pairs.map Prod.snd)

/-- Error kinds surfaced by the embedded functions (gRPC status codes and the
matchmaking sentinel errors used in the excerpt). -/
inductive ErrCode
  | InvalidArgument
  | Internal
  | ResourceExhausted
  | MatchmakingCanceled
  | MatchmakingPingTimeout
deriving DecidableEq, Repr

/-! ## Backfill (evr_matchmaker.go) -/

/-- The live data the `Backfill` loop re-fetches for one candidate under its
per-match lock: `Size` is `match.GetSize()` from the registry, the other
fields are the freshly unmarshalled label.  `none` at the call site models a
candidate whose match is gone or whose label fails to parse. -/
structure LiveMatch where
  Size : Nat
  MaxSize : Nat
  TeamSize : Nat
  playersCount : Nat
deriving DecidableEq, Repr

/-- The candidate loop of `Backfill`: iterates best-first over the sorted
labels, each paired with its live re-fetch; returns the selected
(label, live data) if any, together with the match ids whose per-session
backfill locks were taken (every examined candidate is locked before its
checks run). -/
def backfillLoop (teamIndex : TeamIndex) :
    List (EvrMatchState × Option LiveMatch) → Option (EvrMatchState × LiveMatch) × List UUID
  | [] => (none, [])
  | (label, live?) :: rest =>
    match live? with
    | none =>
        -- Match not found, or failed to get the match label: continue
        let r := backfillLoop teamIndex rest
        (r.1, label.MatchID :: r.2)
    | some live =>
        if live.Size > live.MaxSize + 1 then -- +1 for the broadcaster
          -- "Match is full": continue
          let r := backfillLoop teamIndex rest
          (r.1, label.MatchID :: r.2)
        else if teamIndex ≠ TeamIndex.Spectator ∧ teamIndex ≠ TeamIndex.Moderator ∧
            (live.TeamSize * 2 : Int) - (live.playersCount : Int) < 1 then
          -- No space on the teams for the player(s): continue
          let r := backfillLoop teamIndex rest
          (r.1, label.MatchID :: r.2)
        else
          (some (label, live), [label.MatchID])

/-- The observable outcome of one `Backfill` call. -/
structure BackfillResult where
  selected : Option (EvrMatchState × LiveMatch)
  err : Option ErrCode
  searched : Bool   -- whether MatchSearch/MatchSort ran
  locked : List UUID -- per-session backfill locks taken, in order
deriving DecidableEq, Repr

/-- `Backfill` (evr_matchmaker.go): the private-lobby guard followed by the
candidate loop.  `sortedCandidates` stands for the output of
`MatchSearch`+`MatchSort` paired with each candidate's live registry state;
it is only consumed after the guard passes. -/
def Backfill (msLabel : EvrMatchState)
    (sortedCandidates : List (EvrMatchState × Option LiveMatch)) : BackfillResult :=
  if msLabel.LobbyType ≠ LobbyType.PublicLobby then
    -- Do not backfill for private lobbies
    { selected := none, err := some ErrCode.InvalidArgument, searched := false, locked := [] }
  else
    let r := backfillLoop msLabel.TeamIndex sortedCandidates
    { selected := r.1, err := none, searched := true, locked := r.2 }

/-! ## PingEndpoints and the latency cache (evr_matchmaker.go) -/

/-- One entry of the ping-response message consumed by `PingEndpoints`
(`response.EndpointID()` and `response.RTT()`). -/
structure PingResponse where
  EndpointID : String
  RTT : Nat
deriving DecidableEq, Repr

/-- The per-player latency cache (`msession.LatencyCache`): endpoint id →
stored metric. -/
abbrev LatencyCache := String → Option LatencyMetric

/-- The cache-update loop inside `PingEndpoints`: for each response whose
endpoint is known to the broadcaster registry, store a `LatencyMetric`
carrying the *raw* `response.RTT()` under the endpoint's id; unknown
endpoints are skipped with a warning. -/
def processPingResults (registry : String → Bool) (cache : LatencyCache)
    (results : List PingResponse) : LatencyCache :=
  results.foldl
    (fun c response =>
      if registry response.EndpointID then
        fun k => if k = response.EndpointID then
          some { EndpointID := response.EndpointID, RTT := response.RTT } else c k
      else c)
    cache

/-- `getEndpointLatencies` (evr_matchmaker.go): the cached metrics for the
given endpoints, in endpoint order, skipping endpoints with no cached entry.
The underlying `matchmakingRegistry.GetLatencies` store is outside the
excerpt; per the spec (§4.1 `lookup(endpoints) → metric|absent`) it is the
same per-player latency store the ping loop writes to. -/
def getEndpointLatencies (cache : LatencyCache) (endpoints : List String) :
    List LatencyMetric :=
  endpoints.filterMap cache

/-- Which of the three `select` arms fires while `PingEndpoints` waits for
probe results: context cancelled, the fixed 5-second timer, or the results
arriving on `msession.PingResultsCh`. -/
inductive PingEvent
  | ctxDone
  | timeout5s
  | results (rs : List PingResponse)
deriving DecidableEq, Repr

/-- The observable outcome of one `PingEndpoints` call. -/
structure PingOutcome where
  result : Except ErrCode (List LatencyMetric)
  cache : LatencyCache
  sentPing : Bool  -- whether a ping request was sent to the client
  waited : Bool    -- whether the select (wait for results) was entered

/-- `PingEndpoints` (evr_matchmaker.go).  `candidates` stands for
`msession.GetPingCandidates(endpoints...)` (the subset needing a fresh
probe, computed outside the excerpt), `sendOk` for the transport result of
`sendPingRequest`, and `event` for whichever `select` arm fires first. -/
def PingEndpoints (registry : String → Bool) (cache : LatencyCache)
    (endpoints : List String) (candidates : List String)
    (sendOk : Bool) (event : PingEvent) : PingOutcome :=
  if endpoints = [] then
    { result := Except.ok [], cache := cache, sentPing := false, waited := false }
  else if candidates = [] then
    { result := Except.ok (getEndpointLatencies cache endpoints), cache := cache,
      sentPing := false, waited := false }
  else if ¬sendOk then
    { result := Except.error ErrCode.Internal, cache := cache,
      sentPing := true, waited := false }
  else
    match event with
    | PingEvent.ctxDone =>
        { result := Except.error ErrCode.MatchmakingCanceled, cache := cache,
          sentPing := true, waited := true }
    | PingEvent.timeout5s =>
        { result := Except.error ErrCode.MatchmakingPingTimeout, cache := cache,
          sentPing := true, waited := true }
    | PingEvent.results rs =>
        let c := processPingResults registry cache rs
        { result := Except.ok (getEndpointLatencies c endpoints), cache := c,
          sentPing := true, waited := true }

/-! ## Party join (evr_matchmaker.go) -/

/-- `PartyHandler` state read by `joinPartyGroup`: its id, current member
count (`ph.members.Size()`) and member capacity (`ph.members.maxSize`). -/
structure PartyHandler where
  ID : UUID
  membersSize : Nat
  maxSize : Nat
deriving DecidableEq, Repr

/-- What `joinPartyGroup` did to the party registry. -/
inductive PartyAction
  | joinedExisting
  | createdNew
  | rejectedFull
deriving DecidableEq, Repr

/-- `joinPartyGroup` (evr_matchmaker.go): load the party for the group's
derived id; if found and below capacity, join it; if found and full, return
the handle together with a ResourceExhausted error (without joining); if not
found, create a new open party of capacity 8 holding the user.
`newPartyID` stands for the id the party registry assigns on `Create`. -/
def joinPartyGroup (existing : Option PartyHandler) (newPartyID : UUID) :
    PartyHandler × Option ErrCode × PartyAction :=
  match existing with
  | some ph =>
    if ph.membersSize < ph.maxSize then
      (ph, none, PartyAction.joinedExisting)
    else
      -- "Party is full"
      (ph, some ErrCode.ResourceExhausted, PartyAction.rejectedFull)
  | none =>
      ({ ID := newPartyID, membersSize := 1, maxSize := 8 }, none, PartyAction.createdNew)

/-- The party-related state `MatchMake` carries into the ticket submission. -/
structure MatchMakePartyState where
  partyID : UUID
  msessionParty : Option PartyHandler
  partyGroupProp : Bool       -- stringProps["party_group"] was set
  queryHasPartyBoost : Bool   -- the party_group^5 addon was appended
deriving DecidableEq, Repr

/-- The party step of `MatchMake` (evr_matchmaker.go): when a group id is
configured, call `joinPartyGroup`; on error only a warning is logged, and the
flow continues unconditionally with `partyID = ph.ID`, `msession.Party = ph`
and the party_group properties set. -/
def matchMakePartyStep (groupID : String) (existing : Option PartyHandler)
    (newPartyID : UUID) : MatchMakePartyState :=
  if groupID = "" then
    { partyID := uuidNil, msessionParty := none,
      partyGroupProp := false, queryHasPartyBoost := false }
  else
    let r := joinPartyGroup existing newPartyID
    { partyID := r.1.ID, msessionParty := some r.1,
      partyGroupProp := true, queryHasPartyBoost := true }

/-! ## Match query builder (evr_matchmaker.go) -/

/-- The three predicate flavours of the search query.
Modelled from the spec: the `Query(...)` renderers (`Must`, `MustNot`,
`Should` with boost) live in the repository's matchmaking-registry file,
which is outside the excerpt; per §4.2 a query is a boolean expression over
required, excluded and boosted predicates, so a query is modelled as a list
of tagged parts rather than a string. -/
inductive QueryType
  | Must
  | MustNot
  | Should
deriving DecidableEq, Repr

/-- The predicate payloads appended by `buildMatchQueryFromLabel`. -/
inductive QueryTerm
  | openLobby
  | lobbyType (t : LobbyType)
  | gameMode (m : GameMode)
  | sizeAtMost (n : Nat)      -- the literal "+label.size:<=%d" part
  | matchId (id : UUID)
  | channels (cs : List UUID)
  | channel (c : UUID)
  | region (r : Nat)
deriving DecidableEq, Repr

/-- One space-separated part of the query string. -/
structure QueryPart where
  qtype : QueryType
  term : QueryTerm
  boost : Nat
deriving DecidableEq, Repr

/-- `buildMatchQueryFromLabel` (evr_matchmaker.go), producing the query as
the list of its parts in append order. -/
def buildMatchQueryFromLabel (ml : EvrMatchState) : List QueryPart :=
  let boost : Nat := 0
  let qparts : List QueryPart :=
    [ -- MUST be an open lobby
     { qtype := QueryType.Must, term := QueryTerm.openLobby, boost := boost },
     -- MUST be the same lobby type
     { qtype := QueryType.Must, term := QueryTerm.lobbyType ml.LobbyType, boost := boost },
     -- MUST be the same mode
     { qtype := QueryType.Must, term := QueryTerm.gameMode ml.Mode, boost := boost }]
  -- MUST have room for this party on the teams
  let qparts := if ml.TeamIndex ≠ TeamIndex.Spectator ∧ ml.TeamIndex ≠ TeamIndex.Moderator then
      qparts ++ [{ qtype := QueryType.Must, term := QueryTerm.sizeAtMost ml.Size, boost := 0 }]
    else qparts
  -- MUST NOT match into the same lobby
  let qparts := if ml.MatchID ≠ uuidNil then
      qparts ++ [{ qtype := QueryType.MustNot, term := QueryTerm.matchId ml.MatchID, boost := boost }]
    else qparts
  -- MUST be a broadcaster on a channel the user has access to
  let qparts := if ml.Broadcaster.Channels ≠ [] then
      qparts ++ [{ qtype := QueryType.Must, term := QueryTerm.channels ml.Broadcaster.Channels, boost := 0 }]
    else qparts
  -- SHOULD add the current channel as a high boost
  let qparts := if ml.Channel ≠ uuidNil then
      qparts ++ [{ qtype := QueryType.Should, term := QueryTerm.channel ml.Channel, boost := 3 }]
    else qparts
  -- Add the region as a SHOULD
  let qparts := if ml.Broadcaster.Region ≠ 0 then
      qparts ++ [{ qtype := QueryType.Should, term := QueryTerm.region ml.Broadcaster.Region, boost := 2 }]
    else qparts
  qparts

/-! ## Broadcaster registration (evr_pipeline_broadcaster.go) -/

/-- The external-call results `broadcasterRegistrationRequest` consumes, in
order.  `healthcheckRTT` and `healthcheckErr` are the two return values of
`BroadcasterHealthcheck` (a negative RTT is the unreachable/timeout
sentinel); `hostInfo` is `getBroadcasterHostInfo`'s result; `parkingOk` is
whether `newParkingMatch` succeeds; `sendOk` whether the final success
message sends. -/
structure RegistrationInputs where
  authDetailsOk : Bool      -- extractAuthenticationDetailsFromContext
  authOk : Bool             -- authenticateBroadcaster
  healthcheckRTT : Int
  healthcheckErr : Bool
  hostInfoOk : Bool         -- getBroadcasterHostInfo
  parkingOk : Bool          -- newParkingMatch
  sendOk : Bool             -- final SendEvr of the success message
deriving DecidableEq, Repr

/-- The observable outcome of one registration request. -/
structure RegistrationOutcome where
  failureSent : Bool      -- a BroadcasterRegistrationFailure message was sent
  sessionClosed : Bool    -- session.Close was called
  parkingAttempted : Bool -- newParkingMatch was called
  parkingCreated : Bool   -- newParkingMatch succeeded
  registered : Bool       -- the success message was sent
deriving DecidableEq, Repr

/-- `errFailedRegistration` (evr_pipeline_broadcaster.go): sends a
registration-failure message and closes the session.  The parking flags
record how far the flow got before failing. -/
def errFailedRegistration (parkingAttempted parkingCreated : Bool) : RegistrationOutcome :=
  { failureSent := true, sessionClosed := true,
    parkingAttempted := parkingAttempted, parkingCreated := parkingCreated,
    registered := false }

/-- `broadcasterRegistrationRequest` (evr_pipeline_broadcaster.go): the
registration state machine over the external-call results.  Any failing
stage terminates through `errFailedRegistration`; stages after it never
run. -/
def broadcasterRegistrationRequest (inp : RegistrationInputs) : RegistrationOutcome :=
  if ¬inp.authDetailsOk then errFailedRegistration false false
  else if ¬inp.authOk then errFailedRegistration false false
  -- Validate connectivity to the broadcaster
  else if inp.healthcheckRTT < 0 ∨ inp.healthcheckErr then errFailedRegistration false false
  else if ¬inp.hostInfoOk then errFailedRegistration false false
  else if ¬inp.parkingOk then errFailedRegistration true false
  else if ¬inp.sendOk then errFailedRegistration true true
  else
    { failureSent := false, sessionClosed := false,
      parkingAttempted := true, parkingCreated := true, registered := true }

/-! ## Shared lemmas -/

/-- Stable insertion neither adds nor removes elements. -/
theorem mem_stableInsert {α} (less : α → α → Bool) (x a : α) :
    ∀ l : List α, a ∈ stableInsert less x l ↔ a = x ∨ a ∈ l := by
  intro l
  induction l with
  | nil => simp [stableInsert]
  | cons y ys ih =>
    simp only [stableInsert]
    split
    all_goals simp only [List.mem_cons, ih]
    all_goals tauto

/-- The stable sort is a permutation on membership. -/
theorem mem_sortSliceStable {α} (less : α → α → Bool) (a : α) :
    ∀ l : List α, a ∈ sortSliceStable less l ↔ a ∈ l := by
  intro l
  induction l with
  | nil => simp [sortSliceStable]
  | cons x xs ih =>
    simp only [sortSliceStable, mem_stableInsert, ih, List.mem_cons]

/-- The mode dispatch preserves membership (each branch is a stable sort). -/
theorem mem_sortDatas (mode : GameMode) (d : labelData) (ds : List labelData) :
    d ∈ sortDatas mode ds ↔ d ∈ ds := by
  cases mode <;> simp [sortDatas, mem_sortSliceStable]

/-- Membership is preserved by a conditional append on the right. -/
theorem mem_ite_append {α} {a : α} {l l' : List α} (c : Prop) [Decidable c]
    (h : a ∈ l) : a ∈ (if c then l ++ l' else l) := by
  split
  · exact List.mem_append_left _ h
  · exact h

/-- Lookup in the `endpointRTTs` fold is untouched by entries for other
endpoints. -/
theorem endpointRTTs_foldl_not_mem (ms : List LatencyMetric) :
    ∀ (b : String → Nat) (id : String), (∀ r ∈ ms, r.EndpointID ≠ id) →
      ms.foldl
        (fun m r => fun i =>
          if i = r.EndpointID then mroundRTT r.RTT (10 * millisecond) else m i)
        b id = b id := by
  induction ms with
  | nil => intro b id _; rfl
  | cons r rs ih =>
    intro b id h
    simp only [List.foldl_cons]
    rw [ih _ id (fun r' hr' => h r' (List.mem_cons_of_mem _ hr'))]
    rw [if_neg (fun hc => h r (List.mem_cons_self _ _) hc.symm)]

/-- Generalized-base version of the `endpointRTTs` lookup: with
pairwise-distinct endpoint ids, the fold sends each metric's endpoint to its
RTT rounded to the nearest 10ms. -/
theorem endpointRTTs_foldl_lookup (ms : List LatencyMetric) :
    ∀ (b : String → Nat) (m : LatencyMetric), m ∈ ms →
      (ms.map LatencyMetric.EndpointID).Nodup →
      ms.foldl
        (fun m r => fun i =>
          if i = r.EndpointID then mroundRTT r.RTT (10 * millisecond) else m i)
        b m.EndpointID = mroundRTT m.RTT (10 * millisecond) := by
  induction ms with
  | nil => intro b m hm _; cases hm
  | cons r rs ih =>
    intro b m hm hnd
    simp only [List.map_cons, List.nodup_cons, List.mem_map] at hnd
    simp only [List.foldl_cons]
    rcases List.mem_cons.mp hm with h | h
    · subst h
      rw [endpointRTTs_foldl_not_mem rs _ m.EndpointID
            (fun r' hr' hc => hnd.1 ⟨r', hr', hc⟩)]
      rw [if_pos rfl]
    · exact ih _ m h hnd.2

/-- With pairwise-distinct endpoint ids, the `endpointRTTs` map of `MatchSort`
sends each metric's endpoint to its RTT rounded to the nearest 10ms. -/
theorem endpointRTTs_lookup (ms : List LatencyMetric) (m : LatencyMetric)
    (hm : m ∈ ms) (hnd : (ms.map LatencyMetric.EndpointID).Nodup) :
    endpointRTTs ms m.EndpointID = mroundRTT m.RTT (10 * millisecond) := by
  unfold endpointRTTs
  exact endpointRTTs_foldl_lookup ms _ m hm hnd

/-- Unfolding equation for the cache-update loop. -/
theorem processPingResults_cons (registry : String → Bool) (cache : LatencyCache)
    (r : PingResponse) (rest : List PingResponse) :
    processPingResults registry cache (r :: rest)
      = processPingResults registry
          (if registry r.EndpointID then
            fun k => if k = r.EndpointID then
              some { EndpointID := r.EndpointID, RTT := r.RTT } else cache k
          else cache) rest := rfl

/-- Lookup in the latency cache is untouched by responses for other
endpoints. -/
theorem processPingResults_not_mem (registry : String → Bool)
    (rs : List PingResponse) :
    ∀ (cache : LatencyCache) (id : String), (∀ r ∈ rs, r.EndpointID ≠ id) →
      processPingResults registry cache rs id = cache id := by
  induction rs with
  | nil => intro cache id _; rfl
  | cons r rest ih =>
    intro cache id h
    rw [processPingResults_cons,
        ih _ id (fun r' hr' => h r' (List.mem_cons_of_mem _ hr'))]
    split
    · simp only [if_neg (show ¬(id = r.EndpointID) from
        fun hc => h r (List.mem_cons_self _ _) hc.symm)]
    · rfl

/-- With pairwise-distinct endpoint ids, the cache-update loop of
`PingEndpoints` stores, for each response whose endpoint the registry knows,
a metric carrying the raw (unrounded) RTT of that response. -/
theorem processPingResults_lookup (registry : String → Bool)
    (rs : List PingResponse) :
    ∀ (cache : LatencyCache) (resp : PingResponse), resp ∈ rs →
      (rs.map PingResponse.EndpointID).Nodup →
      registry resp.EndpointID = true →
      processPingResults registry cache rs resp.EndpointID
        = some { EndpointID := resp.EndpointID, RTT := resp.RTT } := by
  induction rs with
  | nil => intro cache resp hm _ _; cases hm
  | cons r rest ih =>
    intro cache resp hm hnd hreg
    simp only [List.map_cons, List.nodup_cons, List.mem_map] at hnd
    rw [processPingResults_cons]
    rcases List.mem_cons.mp hm with h | h
    · subst h
      rw [processPingResults_not_mem registry rest _ resp.EndpointID
            (fun r' hr' hc => hnd.1 ⟨r', hr', hc⟩)]
      rw [if_pos hreg]
      simp
    · exact ih _ resp h hnd.2 hreg

/-- Any candidate the backfill loop selects has live size at most
`MaxSize + 1` (the strict `>` guard only skips candidates above that). -/
theorem backfillLoop_selected_size_le (teamIndex : TeamIndex) :
    ∀ (cands : List (EvrMatchState × Option LiveMatch))
      (label : EvrMatchState) (live : LiveMatch),
      (backfillLoop teamIndex cands).1 = some (label, live) →
      live.Size ≤ live.MaxSize + 1 := by
  intro cands
  induction cands with
  | nil => intro label live h; simp [backfillLoop] at h
  | cons c rest ih =>
    intro label live h
    obtain ⟨clabel, clive?⟩ := c
    cases clive? with
    | none => exact ih label live h
    | some clive =>
      simp only [backfillLoop] at h
      by_cases hsize : clive.Size > clive.MaxSize + 1
      · rw [if_pos hsize] at h
        exact ih label live h
      · rw [if_neg hsize] at h
        by_cases hteam : teamIndex ≠ TeamIndex.Spectator ∧ teamIndex ≠ TeamIndex.Moderator ∧
            (clive.TeamSize * 2 : Int) - (clive.playersCount : Int) < 1
        · rw [if_pos hteam] at h
          exact ih label live h
        · rw [if_neg hteam] at h
          have h' : some (clabel, clive) = some (label, live) := h
          have h2 : clive = live := congrArg Prod.snd (Option.some.inj h')
          subst h2
          omega

/-! ## The claims -/

/-- Candidate A of the spec's latency-tiered example: 80ms, population 5. -/
def c1LabelA : EvrMatchState :=
  { LobbyType := LobbyType.PublicLobby, Mode := GameMode.ModeArenaPublic,
    TeamSize := 4, Size := 5, MaxSize := 8, TeamIndex := TeamIndex.AnyTeam,
    MatchID := 1, Channel := uuidNil,
    Broadcaster := { EndpointID := "A", Channels := [], Region := 0 },
    playersCount := 5 }

/-- Candidate B of the spec's latency-tiered example: 95ms, population 10. -/
def c1LabelB : EvrMatchState :=
  { c1LabelA with
    Size := 10, MatchID := 2,
    Broadcaster := { EndpointID := "B", Channels := [], Region := 0 },
    playersCount := 10 }

/-- Claim C1 (code bug).  The spec says that in the latency-tiered (Arena
public) ranking an under-90ms candidate always ranks above an over-90ms one,
so A(80ms, pop 5) and B(95ms, pop 10) come out `[A, B]`.  The code's
`RTTweightedPopulationCmp` returns `true` ("sorts first") exactly when the
first RTT is over 90ms and the second under — the tier test is inverted —
so `MatchSort` returns `[B, A]` on this input (B's RTT rounds to 100ms,
A's to 80ms). -/
theorem C1_matchSort_arena_failing_input :
    MatchSort GameMode.ModeArenaPublic [c1LabelA, c1LabelB]
        [{ EndpointID := "A", RTT := 80 * millisecond },
         { EndpointID := "B", RTT := 95 * millisecond }]
      = ([c1LabelB, c1LabelA], [100 * millisecond, 80 * millisecond])
    ∧ (MatchSort GameMode.ModeArenaPublic [c1LabelA, c1LabelB]
        [{ EndpointID := "A", RTT := 80 * millisecond },
         { EndpointID := "B", RTT := 95 * millisecond }]).1
        ≠ [c1LabelA, c1LabelB] := by
  decide

/-- A spectator matchmaking-session label for a public lobby. -/
def c2Session : EvrMatchState :=
  { c1LabelA with TeamIndex := TeamIndex.Spectator, MatchID := uuidNil }

/-- A backfill candidate label. -/
def c2Candidate : EvrMatchState :=
  { c1LabelA with
    MatchID := 5,
    Broadcaster := { EndpointID := "cand", Channels := [], Region := 0 } }

/-- Live re-fetched state of the candidate: 9 presences against
`MaxSize = 8`, i.e. exactly `max size + 1` (every player slot plus the
broadcaster's implicit slot occupied). -/
def c2Live : LiveMatch :=
  { Size := 9, MaxSize := 8, TeamSize := 4, playersCount := 8 }

/-- Claim C2 counterexample.  A candidate whose live re-fetched size equals
`max size + 1` ("meets" the capacity the claim describes) is *selected* by
the Backfill loop for a spectator session: the guard skips only sizes
strictly greater than `max size + 1`. -/
theorem C2_counterexample_full_session_selected :
    (Backfill c2Session [(c2Candidate, some c2Live)]).selected
      = some (c2Candidate, c2Live)
    ∧ c2Live.Size = c2Live.MaxSize + 1 := by
  decide

/-- Claim C2 (amended): the Backfill selector never selects a candidate
whose live re-fetched size strictly exceeds `max size + 1` (the +1 being the
hosting broadcaster's implicit slot); such a candidate is skipped and
iteration advances.  A candidate at exactly `max size + 1` is not rejected
by this check. -/
theorem C2_backfill_selected_size_le (msLabel : EvrMatchState)
    (cands : List (EvrMatchState × Option LiveMatch))
    (label : EvrMatchState) (live : LiveMatch)
    (h : (Backfill msLabel cands).selected = some (label, live)) :
    live.Size ≤ live.MaxSize + 1 := by
  unfold Backfill at h
  split at h
  · simp at h
  · exact backfillLoop_selected_size_le msLabel.TeamIndex cands label live h

/-- Witness for C2: the bound holds at the concrete selected candidate. -/
theorem C2_backfill_selected_size_le_witness : c2Live.Size ≤ c2Live.MaxSize + 1 :=
  C2_backfill_selected_size_le c2Session [(c2Candidate, some c2Live)]
    c2Candidate c2Live (by decide)

/-- Claim C3 counterexample.  A probe result of 83ms is stored in the
latency cache as 83ms, not as its 10ms-rounded value 80ms: rounding does
not happen before storage. -/
theorem C3_counterexample_cache_stores_unrounded :
    (PingEndpoints (fun _ => true) (fun _ => none) ["a"] ["a"] true
        (PingEvent.results [{ EndpointID := "a", RTT := 83 * millisecond }])).cache "a"
      = some { EndpointID := "a", RTT := 83 * millisecond }
    ∧ mroundRTT (83 * millisecond) (10 * millisecond) = 80 * millisecond
    ∧ 83 * millisecond ≠ 80 * millisecond := by
  decide

/-- Claim C3 (amended): the latency cache stores each consumed probe
result's *raw* measured RTT; rounding to the nearest 10ms modulus is applied
by `MatchSort` when it builds the ranking map from the cached metrics —
before ranking, not before storage. -/
theorem C3_cache_raw_and_rank_rounded (registry : String → Bool)
    (cache : LatencyCache) (rs : List PingResponse) (resp : PingResponse)
    (ms : List LatencyMetric) (m : LatencyMetric)
    (h1 : resp ∈ rs) (h2 : (rs.map PingResponse.EndpointID).Nodup)
    (h3 : registry resp.EndpointID = true)
    (h4 : m ∈ ms) (h5 : (ms.map LatencyMetric.EndpointID).Nodup) :
    processPingResults registry cache rs resp.EndpointID
        = some { EndpointID := resp.EndpointID, RTT := resp.RTT }
    ∧ endpointRTTs ms m.EndpointID = mroundRTT m.RTT (10 * millisecond) :=
  ⟨processPingResults_lookup registry rs cache resp h1 h2 h3,
   endpointRTTs_lookup ms m h4 h5⟩

/-- Witness for C3 at concrete inputs. -/
theorem C3_cache_raw_and_rank_rounded_witness :
    processPingResults (fun _ => true) (fun _ => none)
        [{ EndpointID := "a", RTT := 83 * millisecond }] "a"
      = some { EndpointID := "a", RTT := 83 * millisecond }
    ∧ endpointRTTs [{ EndpointID := "b", RTT := 95 * millisecond }] "b"
      = mroundRTT (95 * millisecond) (10 * millisecond) :=
  C3_cache_raw_and_rank_rounded (fun _ => true) (fun _ => none)
    [{ EndpointID := "a", RTT := 83 * millisecond }]
    { EndpointID := "a", RTT := 83 * millisecond }
    [{ EndpointID := "b", RTT := 95 * millisecond }]
    { EndpointID := "b", RTT := 95 * millisecond }
    (by decide) (by decide) (by decide) (by decide) (by decide)

/-- A candidate label on endpoint "a" for the C4 example. -/
def c4Label : EvrMatchState :=
  { c1LabelA with
    Broadcaster := { EndpointID := "a", Channels := [], Region := 0 } }

/-- Claim C4 counterexample.  A candidate measured at 271ms is *kept* by
`MatchSort`: the 270ms ceiling is applied to the 10ms-rounded RTT, and
271ms rounds to 270ms. -/
theorem C4_counterexample_271ms_included :
    (MatchSort GameMode.ModeSocialPublic [c4Label]
        [{ EndpointID := "a", RTT := 271 * millisecond }]).1 = [c4Label]
    ∧ 271 * millisecond > 270 * millisecond := by
  decide

/-- Claim C4 (amended): for every candidate set given to `MatchSort`, the
ranked output never includes a candidate whose 10ms-rounded latency is
absent (zero) or exceeds the 270ms ceiling; the filter applies to the
rounded value, so a measured 271ms (rounding to 270ms) is kept and
exclusion begins once the rounded value passes 270ms. -/
theorem C4_matchSort_filters_rounded_rtt (mode : GameMode)
    (labels : List EvrMatchState) (result : List LatencyMetric)
    (l : EvrMatchState) (hl : l ∈ (MatchSort mode labels result).1) :
    endpointRTTs result l.Broadcaster.EndpointID ≠ 0 ∧
    endpointRTTs result l.Broadcaster.EndpointID ≤ 270 * millisecond := by
  unfold MatchSort at hl
  split at hl
  · simp at hl
  · simp only [List.mem_map, List.mem_filterMap] at hl
    obtain ⟨pair, ⟨d, hd, hfind⟩, hfst⟩ := hl
    rw [mem_sortDatas] at hd
    rw [Option.map_eq_some'] at hfind
    obtain ⟨l', hfindeq, hpaireq⟩ := hfind
    have hfp := List.find?_some hfindeq
    have hid : l'.Broadcaster.EndpointID = d.Id := by simpa using hfp
    have hll' : l = l' := by rw [← hfst, ← hpaireq]
    simp only [datasOf, List.mem_filterMap] at hd
    obtain ⟨l0, _, hif⟩ := hd
    by_cases hc : endpointRTTs result l0.Broadcaster.EndpointID = 0 ∨
        endpointRTTs result l0.Broadcaster.EndpointID > 270 * millisecond
    · rw [if_pos hc] at hif
      exact Option.noConfusion hif
    · rw [if_neg hc] at hif
      push_neg at hc
      obtain rfl := Option.some.inj hif
      rw [hll', hid]
      exact ⟨hc.1, hc.2⟩

/-- Witness for C4: a 80ms candidate is ranked, and its rounded latency is
nonzero and under the ceiling. -/
theorem C4_matchSort_filters_rounded_rtt_witness :
    endpointRTTs [{ EndpointID := "a", RTT := 80 * millisecond }] "a" ≠ 0 ∧
    endpointRTTs [{ EndpointID := "a", RTT := 80 * millisecond }] "a"
      ≤ 270 * millisecond :=
  C4_matchSort_filters_rounded_rtt GameMode.ModeSocialPublic [c4Label]
    [{ EndpointID := "a", RTT := 80 * millisecond }] c4Label (by decide)

/-- Claim C5.  When the broadcaster health check fails or reports the
negative unreachable sentinel, registration terminates at the
connectivity-check stage: a registration-failure message is sent, the
session is closed, and `newParkingMatch` is never called
(`errFailedRegistration false false` records exactly that outcome). -/
theorem C5_healthcheck_failure_aborts (inp : RegistrationInputs)
    (h1 : inp.authDetailsOk = true) (h2 : inp.authOk = true)
    (h3 : inp.healthcheckRTT < 0 ∨ inp.healthcheckErr = true) :
    broadcasterRegistrationRequest inp = errFailedRegistration false false := by
  unfold broadcasterRegistrationRequest
  simp only [h1, h2, not_true, if_false]
  rw [if_pos h3]

/-- Witness for C5: a request whose health check returns the -1 sentinel. -/
theorem C5_healthcheck_failure_aborts_witness :
    broadcasterRegistrationRequest
      { authDetailsOk := true, authOk := true, healthcheckRTT := -1,
        healthcheckErr := false, hostInfoOk := true, parkingOk := true,
        sendOk := true }
      = errFailedRegistration false false :=
  C5_healthcheck_failure_aborts
    { authDetailsOk := true, authOk := true, healthcheckRTT := -1,
      healthcheckErr := false, hostInfoOk := true, parkingOk := true,
      sendOk := true }
    rfl rfl (Or.inl (by decide))

/-- Claim C6 counterexample.  With the party at capacity (8 of 8),
`joinPartyGroup` reports ResourceExhausted — but `MatchMake` only logs the
error and proceeds as if joined: it still records the full party's id as the
session's party and sets the party-group properties. -/
theorem C6_counterexample_flow_proceeds_when_party_full :
    (joinPartyGroup (some { ID := 7, membersSize := 8, maxSize := 8 }) 9).2.1
      = some ErrCode.ResourceExhausted
    ∧ matchMakePartyStep "grp" (some { ID := 7, membersSize := 8, maxSize := 8 }) 9
      = { partyID := 7, msessionParty := some { ID := 7, membersSize := 8, maxSize := 8 },
          partyGroupProp := true, queryHasPartyBoost := true } := by
  decide

/-- Claim C6 (amended): when the existing party is at its maximum size the
party join itself reports a resource-exhausted condition and the player is
not added, but `MatchMake` nevertheless proceeds, associating the full
party's handle and id with the attempt; below capacity the player joins the
existing party, and with no existing party a new one (capacity 8) is
created. -/
theorem C6_party_join_cases (ph : PartyHandler) (newPartyID : UUID) (g : String)
    (hg : g ≠ "") :
    (ph.maxSize ≤ ph.membersSize →
      joinPartyGroup (some ph) newPartyID
          = (ph, some ErrCode.ResourceExhausted, PartyAction.rejectedFull)
      ∧ matchMakePartyStep g (some ph) newPartyID
          = { partyID := ph.ID, msessionParty := some ph,
              partyGroupProp := true, queryHasPartyBoost := true })
    ∧ (ph.membersSize < ph.maxSize →
      joinPartyGroup (some ph) newPartyID = (ph, none, PartyAction.joinedExisting))
    ∧ joinPartyGroup none newPartyID
        = ({ ID := newPartyID, membersSize := 1, maxSize := 8 }, none,
           PartyAction.createdNew) := by
  refine ⟨fun hfull => ⟨?_, ?_⟩, fun hlt => ?_, rfl⟩
  · simp only [joinPartyGroup]
    rw [if_neg (not_lt.mpr hfull)]
  · simp only [matchMakePartyStep, joinPartyGroup]
    rw [if_neg hg, if_neg (not_lt.mpr hfull)]
  · simp only [joinPartyGroup]
    rw [if_pos hlt]

/-- Witness for C6 at a full party. -/
theorem C6_party_join_cases_witness :
    joinPartyGroup (some { ID := 7, membersSize := 8, maxSize := 8 }) 9
      = ({ ID := 7, membersSize := 8, maxSize := 8 }, some ErrCode.ResourceExhausted,
         PartyAction.rejectedFull)
    ∧ matchMakePartyStep "grp" (some { ID := 7, membersSize := 8, maxSize := 8 }) 9
      = { partyID := 7, msessionParty := some { ID := 7, membersSize := 8, maxSize := 8 },
          partyGroupProp := true, queryHasPartyBoost := true } :=
  (C6_party_join_cases { ID := 7, membersSize := 8, maxSize := 8 } 9 "grp"
    (by decide)).1 (by decide)

/-- Claim C7.  While `PingEndpoints` awaits probe results (a ping request
was sent for a nonempty candidate list), context cancellation surfaces the
cancellation error and the fixed 5-second timer surfaces the ping-timeout
error; neither path returns latency data. -/
theorem C7_ping_wait_cancel_timeout (registry : String → Bool)
    (cache : LatencyCache) (endpoints candidates : List String)
    (h1 : endpoints ≠ []) (h2 : candidates ≠ []) :
    (PingEndpoints registry cache endpoints candidates true
        PingEvent.ctxDone).result = Except.error ErrCode.MatchmakingCanceled
    ∧ (PingEndpoints registry cache endpoints candidates true
        PingEvent.timeout5s).result = Except.error ErrCode.MatchmakingPingTimeout := by
  constructor
  · unfold PingEndpoints
    rw [if_neg h1, if_neg h2]
    rfl
  · unfold PingEndpoints
    rw [if_neg h1, if_neg h2]
    rfl

/-- Witness for C7 at concrete inputs. -/
theorem C7_ping_wait_cancel_timeout_witness :
    (PingEndpoints (fun _ => false) (fun _ => none) ["e"] ["e"] true
        PingEvent.ctxDone).result = Except.error ErrCode.MatchmakingCanceled
    ∧ (PingEndpoints (fun _ => false) (fun _ => none) ["e"] ["e"] true
        PingEvent.timeout5s).result = Except.error ErrCode.MatchmakingPingTimeout :=
  C7_ping_wait_cancel_timeout (fun _ => false) (fun _ => none) ["e"] ["e"]
    (by decide) (by decide)

/-- Claim C8.  For a non-spectator, non-moderator desired label with a
populated channel list (and a current session to exclude), the built query
contains the MUST predicate over the accessible channels and the MUST NOT
predicate over the requester's current match id. -/
theorem C8_query_must_channels_mustnot_session (ml : EvrMatchState)
    (h1 : ml.TeamIndex ≠ TeamIndex.Spectator)
    (h2 : ml.TeamIndex ≠ TeamIndex.Moderator)
    (h3 : ml.Broadcaster.Channels ≠ []) (h4 : ml.MatchID ≠ uuidNil) :
    ({ qtype := QueryType.Must, term := QueryTerm.channels ml.Broadcaster.Channels,
       boost := 0 } : QueryPart) ∈ buildMatchQueryFromLabel ml
    ∧ ({ qtype := QueryType.MustNot, term := QueryTerm.matchId ml.MatchID,
         boost := 0 } : QueryPart) ∈ buildMatchQueryFromLabel ml := by
  have h12 : ml.TeamIndex ≠ TeamIndex.Spectator ∧ ml.TeamIndex ≠ TeamIndex.Moderator :=
    ⟨h1, h2⟩
  simp only [buildMatchQueryFromLabel]
  rw [if_pos h12, if_pos h4, if_pos h3]
  constructor
  · apply mem_ite_append
    apply mem_ite_append
    exact List.mem_append_right _ (List.mem_singleton.mpr rfl)
  · apply mem_ite_append
    apply mem_ite_append
    apply List.mem_append_left
    exact List.mem_append_right _ (List.mem_singleton.mpr rfl)

/-- Witness for C8 at a concrete label. -/
theorem C8_query_must_channels_mustnot_session_witness :
    ({ qtype := QueryType.Must, term := QueryTerm.channels [3], boost := 0 } : QueryPart)
      ∈ buildMatchQueryFromLabel { c1LabelA with
          Broadcaster := { EndpointID := "A", Channels := [3], Region := 0 } }
    ∧ ({ qtype := QueryType.MustNot, term := QueryTerm.matchId 1, boost := 0 } : QueryPart)
      ∈ buildMatchQueryFromLabel { c1LabelA with
          Broadcaster := { EndpointID := "A", Channels := [3], Region := 0 } } :=
  C8_query_must_channels_mustnot_session
    { c1LabelA with
      Broadcaster := { EndpointID := "A", Channels := [3], Region := 0 } }
    (by decide) (by decide) (by decide) (by decide)

/-- Claim C9.  For a desired label whose lobby type is not the public one,
`Backfill` returns no candidate and an invalid-argument error before any
search runs or any per-session lock is taken. -/
theorem C9_private_lobby_no_backfill (msLabel : EvrMatchState)
    (cands : List (EvrMatchState × Option LiveMatch))
    (h : msLabel.LobbyType ≠ LobbyType.PublicLobby) :
    Backfill msLabel cands
      = { selected := none, err := some ErrCode.InvalidArgument,
          searched := false, locked := [] } := by
  unfold Backfill
  rw [if_pos h]

/-- Witness for C9 at a private-lobby label. -/
theorem C9_private_lobby_no_backfill_witness :
    Backfill { c2Session with LobbyType := LobbyType.PrivateLobby }
        [(c2Candidate, some c2Live)]
      = { selected := none, err := some ErrCode.InvalidArgument,
          searched := false, locked := [] } :=
  C9_private_lobby_no_backfill
    { c2Session with LobbyType := LobbyType.PrivateLobby }
    [(c2Candidate, some c2Live)] (by decide)

/-- Claim C10.  `PingEndpoints` called with an empty endpoint list returns
immediately with no latency metrics and no error: no ping request is sent
and the result wait is never entered. -/
theorem C10_ping_empty_endpoints_noop (registry : String → Bool)
    (cache : LatencyCache) (candidates : List String) (sendOk : Bool)
    (event : PingEvent) :
    PingEndpoints registry cache [] candidates sendOk event
      = { result := Except.ok [], cache := cache, sentPing := false,
          waited := false } := by
  unfold PingEndpoints
  rw [if_pos rfl]

end Nakama

